import Mathlib

/-!
Verification of the tool-augmented generation loop of the RAG chatbot
backend (`backend/ai_generator.py`) and of the tool-dispatch layer
(`backend/search_tools.py`, known here only through its tests and the
specification).

The embedding is shallow: the Python methods become Lean functions, the
Anthropic client collaborator becomes an explicit response stream
(one response per call index), and every model call and tool dispatch is
recorded in an output trace so that call-count and ordering properties can
be stated.  Python exceptions are represented with `Except`; Python
truthiness tests (`if tools:`, `if conversation_history:`,
`if tool_results:`, `if not tool_manager:`) are embedded as explicit
emptiness checks.
-/

set_option autoImplicit false

namespace RagCore

/-- Python exceptions that the embedded code can surface: indexing an empty
content list (`response.content[0]`), reading the `text` attribute of a
content block that has none (a tool-use block), and an arbitrary failure
raised by the model-call collaborator. -/
inductive PyError where
  | indexError
  | attributeError
  | apiError (msg : String)
  deriving DecidableEq, Repr

/-- Tool argument mapping, the `input` of a tool-use block, passed opaquely
by the loop to the dispatcher (`**content_block.input`).  Argument values
are modelled as strings; the loop never inspects them. -/
abbrev ToolArgs := List (String × String)

/-- Tool schemas are opaque to `ai_generator.py`: they are passed through to
the API parameters unchanged, so they are modelled as plain strings. -/
abbrev ToolDef := String

/-- One content block of a model response.  Following the collaborator
contract (a block is either text or a tool-use request with name, id and
argument mapping), `text` is present only on text blocks: reading it on a
block that lacks it raises `AttributeError` in Python, which
`contentFirstText` reflects. -/
structure ContentBlock where
  type : String
  text : Option String := none
  id : String := ""
  name : String := ""
  input : ToolArgs := []
  deriving DecidableEq, Repr

/-- A model response: a stop reason and a sequence of content blocks,
mirroring the fields of the Anthropic response object that
`generate_response` reads. -/
structure ModelResponse where
  stop_reason : String
  content : List ContentBlock
  deriving DecidableEq, Repr

/-- One `tool_result` dictionary built by `_execute_tools`. -/
structure ToolResultEntry where
  type : String
  tool_use_id : String
  content : String
  deriving DecidableEq, Repr

/-- The content of one message in the accumulated message sequence: the
user query (a plain string), an assistant turn (the response's content
blocks), or a user turn carrying tool results. -/
inductive MsgContent where
  | text (s : String)
  | blocks (bs : List ContentBlock)
  | results (rs : List ToolResultEntry)
  deriving DecidableEq, Repr

/-- One message of the sequence sent to the model. -/
structure Message where
  role : String
  content : MsgContent
  deriving DecidableEq, Repr

/-- The keyword arguments of one `client.messages.create` call.  `tools`
and `tool_choice` are `none` when the corresponding keys are absent from
the dictionary. -/
structure ApiParams where
  model : String
  temperature : Nat := 0
  max_tokens : Nat := 800
  messages : List Message
  system : String
  tools : Option (List ToolDef) := none
  tool_choice : Option String := none
  deriving DecidableEq, Repr

/-- The duck-typed `tool_manager` collaborator: one operation
`execute_tool(name, **kwargs) -> str`. -/
structure ToolManager where
  execute_tool : String → ToolArgs → String

/-- One dispatcher invocation as recorded in the trace: tool name and
argument mapping. -/
abbrev ToolCall := String × ToolArgs

/-- The observable outcome of one `generate_response` run: every model call
made (its parameters, in order), every dispatcher invocation (in order),
and the returned text or the propagated exception. -/
structure GenOutput where
  apiCalls : List ApiParams
  toolCalls : List ToolCall
  result : Except PyError String
  deriving Repr

/-- Python truthiness of an optional list (`if tools:`): `None` and the
empty list are falsy. -/
def truthyList {α : Type} (l : Option (List α)) : Bool :=
  match l with
  | none => false
  | some xs => !xs.isEmpty

/-- Python truthiness of an optional string (`if conversation_history:`):
`None` and the empty string are falsy. -/
def truthyStr (s : Option String) : Bool :=
  match s with
  | none => false
  | some t => !t.isEmpty

/-- Evaluation of `response.content[0].text`: `IndexError` on an empty
content list, `AttributeError` when the first block has no text. -/
def contentFirstText (r : ModelResponse) : Except PyError String :=
  match r.content with
  | [] => Except.error PyError.indexError
  | b :: _ =>
    match b.text with
    | some t => Except.ok t
    | none => Except.error PyError.attributeError

/-- The static system prompt of `AIGenerator` (class attribute
`SYSTEM_PROMPT`), copied verbatim from the source. -/
def SYSTEM_PROMPT : String := " You are an AI assistant specialized in course materials and educational content with access to tools for searching course information.

Tool Usage Guidelines:
- **Course Outline Tool** (`get_course_outline`): Use for questions about:
  - Course structure or organization
  - What lessons are in a course
  - How many lessons a course has
  - Course metadata (title, instructor, link)
  - Complete lesson listings
  - Returns: Course title, course link, instructor, and full lesson list with numbers and titles

- **Content Search Tool** (`search_course_content`): Use for questions about:
  - Specific concepts or topics within course materials
  - Detailed educational content
  - Answers to technical questions from course lessons
  - Returns: Relevant content excerpts from courses/lessons

- **Sequential Tool Usage**:
  - You may use tools across up to 2 rounds to gather comprehensive information
  - Use multiple rounds when you need information from one tool to inform another tool call
  - Examples of valid sequential use:
    * Round 1: Get course outline to identify lesson titles
    * Round 2: Search for content based on the lesson information
  - After gathering information, synthesize into a comprehensive answer

- Synthesize tool results into accurate, fact-based responses
- If no results are found, state this clearly without offering alternatives

Response Protocol:
- **General knowledge questions**: Answer using existing knowledge without using tools
- **Course outline/structure questions**: Use the outline tool first, then answer, including the course title, course linnk, and complete lesson list in a well-formatted manner
- **Course content questions**: Use the search tool first, then answer
- **No meta-commentary**:
 - Provide direct answers only â€” no reasoning process, tool usage explanations, or question-type analysis
 - Do not mention \"based on the search results\" or \"using the tool\"


All responses must be:
1. **Brief, Concise and focused** - Get to the point quickly
2. **Educational** - Maintain instructional value
3. **Clear** - Use accessible language
4. **Example-supported** - Include relevant examples when they aid understanding
Provide only the direct answer to what was asked.
"

/-- The loop bound of `generate_response` (`MAX_TOOL_ROUNDS = 2`). -/
def MAX_TOOL_ROUNDS : Nat := 2

/-- Body of `AIGenerator._execute_tools`, as a recursion over the content
blocks: for each block of type `"tool_use"`, in order, invoke the
dispatcher and collect one `tool_result` entry tagged with the block's id.
Also returns the list of dispatcher invocations made, in order, for the
trace. -/
def execute_toolsAux (tm : ToolManager) : List ContentBlock → List ToolResultEntry × List ToolCall
  | [] => ([], [])
  | b :: rest =>
    let r := execute_toolsAux tm rest
    if b.type == "tool_use" then
      (⟨"tool_result", b.id, tm.execute_tool b.name b.input⟩ :: r.1, (b.name, b.input) :: r.2)
    else r

/-- `AIGenerator._execute_tools(response, tool_manager)`. -/
def execute_tools (response : ModelResponse) (tm : ToolManager) : List ToolResultEntry × List ToolCall :=
  execute_toolsAux tm response.content

/-- The `api_params` dictionary of one in-loop model call: base parameters
plus messages and system, with `tools` and `tool_choice: auto` added only
when `tools` is truthy. -/
def roundParams (model : String) (system_content : String) (messages : List Message)
    (tools : Option (List ToolDef)) : ApiParams :=
  if truthyList tools then
    { model := model, messages := messages, system := system_content,
      tools := tools, tool_choice := some "auto" }
  else
    { model := model, messages := messages, system := system_content }

/-- The `final_params` dictionary of the after-loop model call: base
parameters plus messages and system, never any `tools` or `tool_choice`. -/
def finalParams (model : String) (system_content : String) (messages : List Message) : ApiParams :=
  { model := model, messages := messages, system := system_content }

/-- The `for round_num in range(MAX_TOOL_ROUNDS)` loop of
`generate_response`, by recursion on the rounds remaining; the base case is
the tools-free final call made after the loop.  `client` is the model-call
collaborator, consumed one response per call index; `callIdx` is the index
of the next call; `apiLog` and `toolLog` accumulate the trace. -/
def genLoop (model : String) (client : Nat → Except PyError ModelResponse)
    (system_content : String) (tools : Option (List ToolDef))
    (tool_manager : Option ToolManager) :
    Nat → List Message → Nat → List ApiParams → List ToolCall → GenOutput
  | 0, messages, callIdx, apiLog, toolLog =>
    let fp := finalParams model system_content messages
    match client callIdx with
    | Except.error e => ⟨apiLog ++ [fp], toolLog, Except.error e⟩
    | Except.ok finalResponse => ⟨apiLog ++ [fp], toolLog, contentFirstText finalResponse⟩
  | n + 1, messages, callIdx, apiLog, toolLog =>
    let ap := roundParams model system_content messages tools
    match client callIdx with
    | Except.error e => ⟨apiLog ++ [ap], toolLog, Except.error e⟩
    | Except.ok response =>
      if response.stop_reason ≠ "tool_use" then
        ⟨apiLog ++ [ap], toolLog, contentFirstText response⟩
      else
        match tool_manager with
        | none => ⟨apiLog ++ [ap], toolLog, contentFirstText response⟩
        | some tm =>
          let messages2 := messages ++ [⟨"assistant", MsgContent.blocks response.content⟩]
          let er := execute_tools response tm
          let messages3 :=
            if er.1.isEmpty then messages2
            else messages2 ++ [⟨"user", MsgContent.results er.1⟩]
          genLoop model client system_content tools tool_manager n messages3 (callIdx + 1)
            (apiLog ++ [ap]) (toolLog ++ er.2)

/-- `AIGenerator.generate_response(query, conversation_history, tools,
tool_manager)`.  `model` is the instance's model name; `client` is the
response stream of the Anthropic client collaborator. -/
def generate_response (model : String) (client : Nat → Except PyError ModelResponse)
    (query : String) (conversation_history : Option String)
    (tools : Option (List ToolDef)) (tool_manager : Option ToolManager) : GenOutput :=
  let system_content :=
    if truthyStr conversation_history then
      SYSTEM_PROMPT ++ "\n\nPrevious conversation:\n" ++ conversation_history.getD ""
    else
      SYSTEM_PROMPT
  let messages : List Message := [⟨"user", MsgContent.text query⟩]
  genLoop model client system_content tools tool_manager MAX_TOOL_ROUNDS messages 0 [] []

/-- Whether one client slot holds a successful response that requests tool
use (`stop_reason == "tool_use"`). -/
def okToolUse (r : Except PyError ModelResponse) : Bool :=
  match r with
  | Except.ok resp => resp.stop_reason == "tool_use"
  | Except.error _ => false

end RagCore

namespace SearchTools

/-- The single-quote character, as a one-character string, used by the
not-found and empty-result message formats. -/
def sq : String := String.mk [Char.ofNat 39]

/-- Modelled from the spec: `search_tools.py` is not under src/ (only its
tests are).  ToolManager keeps a name→tool mapping; a registered tool is
abstracted as its execute capability, one operation from an argument
mapping to result text. -/
structure ToolManager where
  tools : List (String × (RagCore.ToolArgs → String))

/-- Modelled from the spec: `dispatch(name, **args) -> text` looks the tool
up by name; if absent, returns the fixed message `Tool '{name}' not found`
and never raises (totality is immediate from the return type); otherwise
invokes the looked-up tool's execute with the arguments and returns its
text. -/
def ToolManager.execute_tool (m : ToolManager) (tool_name : String)
    (args : RagCore.ToolArgs) : String :=
  match m.tools.lookup tool_name with
  | none => "Tool " ++ sq ++ tool_name ++ sq ++ " not found"
  | some t => t args

/-- Metadata of one retrieval hit: the course title and, when the chunk
belongs to a lesson, the lesson number. -/
structure SearchMeta where
  course_title : String
  lesson_number : Option Int
  deriving DecidableEq, Repr

/-- Modelled from the spec: the value returned by the retrieval
collaborator — an ordered list of documents with parallel metadata, or an
error indicator.  Distances accompany hits in the source but are never
consulted by `execute`, so they are not represented. -/
structure SearchResults where
  documents : List String
  metadata : List SearchMeta
  error : Option String
  deriving DecidableEq, Repr

/-- The retrieval collaborator (`vector_store.search`), abstracted as a
function of the query and the two optional filters. -/
structure VectorStore where
  search : String → Option String → Option Int → SearchResults

/-- Modelled from the spec: the search tool wraps the retrieval
collaborator. -/
structure CourseSearchTool where
  store : VectorStore

/-- Modelled from the spec: one formatted hit — a header `[{course_title}]`
(or `[{course_title} - Lesson {n}]` when the metadata carries a lesson
number) followed by the document text. -/
def formatHit (doc : String) (meta : SearchMeta) : String :=
  let header :=
    match meta.lesson_number with
    | some n => "[" ++ meta.course_title ++ " - Lesson " ++ toString n ++ "]"
    | none => "[" ++ meta.course_title ++ "]"
  header ++ "\n" ++ doc

/-- Modelled from the spec: the formatted hit blocks joined by blank lines,
in result order. -/
def formatResults (rs : SearchResults) : String :=
  String.intercalate "\n\n" ((rs.documents.zip rs.metadata).map (fun p => formatHit p.1 p.2))

/-- Modelled from the spec: `CourseSearchTool.execute(query, course_name?,
lesson_number?)` — delegate to the collaborator; return an error message
verbatim; on an empty hit list return the filter-dependent no-content
message (course clause before lesson clause); otherwise return the
formatted hits.  The source-list side effect is outside the claims and is
not represented. -/
def CourseSearchTool.execute (tool : CourseSearchTool) (query : String)
    (course_name : Option String) (lesson_number : Option Int) : String :=
  let results := tool.store.search query course_name lesson_number
  match results.error with
  | some e => e
  | none =>
    if results.documents.isEmpty then
      let courseClause :=
        match course_name with
        | some c => " in course " ++ sq ++ c ++ sq
        | none => ""
      let lessonClause :=
        match lesson_number with
        | some n => " in lesson " ++ toString n
        | none => ""
      "No relevant content found" ++ courseClause ++ lessonClause ++ "."
    else
      formatResults results

end SearchTools

open RagCore

/-! Concrete fixtures used by the witness and counterexample theorems,
mirroring the mock responses of the backend test suite. -/

/-- A terminal response: ordinary stop reason, one text block. -/
def simpleResp : ModelResponse :=
  { stop_reason := "end_turn",
    content := [{ type := "text", text := some "This is a simple response from Claude." }] }

/-- A response requesting one tool use. -/
def toolUseResp : ModelResponse :=
  { stop_reason := "tool_use",
    content := [{ type := "tool_use", id := "tool_1", name := "search_course_content",
                  input := [("query", "testing basics")] }] }

/-- A terminal response carrying the final synthesized answer. -/
def finalResp : ModelResponse :=
  { stop_reason := "end_turn",
    content := [{ type := "text", text := some "Final answer synthesizing tool results" }] }

/-- A client that always answers without tool use. -/
def clientSimple : Nat → Except PyError ModelResponse := fun _ => Except.ok simpleResp

/-- A client that always requests tool use. -/
def clientAlwaysTool : Nat → Except PyError ModelResponse := fun _ => Except.ok toolUseResp

/-- A client that requests tool use twice, then answers. -/
def clientTwoRounds : Nat → Except PyError ModelResponse := fun n =>
  if n < 2 then Except.ok toolUseResp else Except.ok finalResp

/-- A client whose second call fails. -/
def clientFailSecond : Nat → Except PyError ModelResponse := fun n =>
  if n = 0 then Except.ok toolUseResp else Except.error (PyError.apiError "API unreachable")

/-- A dispatcher that returns a fixed result text. -/
def tmFixed : ToolManager := ⟨fun _ _ => "Search results here"⟩

/-- A response with stop reason `tool_use` but no tool-use content block. -/
def toolUseEmptyResp : ModelResponse :=
  { stop_reason := "tool_use", content := [{ type := "text", text := some "thinking" }] }

/-- A client that always returns the blockless tool-use response. -/
def clientOddTool : Nat → Except PyError ModelResponse := fun _ => Except.ok toolUseEmptyResp

/-- A registry with no registered tools. -/
def emptyManager : SearchTools.ToolManager := ⟨[]⟩

/-- A retrieval collaborator that always returns an empty, error-free hit
list. -/
def emptyStore : SearchTools.VectorStore := ⟨fun _ _ _ => ⟨[], [], none⟩⟩

/-- A search tool over the empty store. -/
def emptyTool : SearchTools.CourseSearchTool := ⟨emptyStore⟩

/-- A retrieval collaborator that always reports an error. -/
def errStore : SearchTools.VectorStore := ⟨fun _ _ _ => ⟨[], [], some "Course not found"⟩⟩

/-- A search tool over the erroring store. -/
def errTool : SearchTools.CourseSearchTool := ⟨errStore⟩

/-! Helper lemmas shared by the claim theorems. -/

/-- Characterization of `_execute_tools` over the block list: one result
entry and one dispatch per block of type `tool_use`, in block order, each
entry tagged with the block's id. -/
theorem execute_toolsAux_eq (tm : ToolManager) (bs : List ContentBlock) :
    execute_toolsAux tm bs =
      ((bs.filter (fun b => b.type == "tool_use")).map
        (fun b => (⟨"tool_result", b.id, tm.execute_tool b.name b.input⟩ : ToolResultEntry)),
       (bs.filter (fun b => b.type == "tool_use")).map (fun b => (b.name, b.input))) := by
  induction bs with
  | nil => rfl
  | cons b rest ih =>
    by_cases h : (b.type == "tool_use") = true
    · simp [execute_toolsAux, List.filter_cons, h, ih]
    · simp [execute_toolsAux, List.filter_cons, h, ih]

/-! Claim theorems. -/

/-- C2: when the first model response's stop reason is not `tool_use`,
exactly one model call occurs, no tool is dispatched, and the text of that
response's first content block is returned unchanged. -/
theorem generate_response_early_exit
    (model : String) (client : Nat → Except PyError ModelResponse)
    (query : String) (hist : Option String) (tools : Option (List ToolDef))
    (tmo : Option ToolManager) (r : ModelResponse) (t : String)
    (hc : client 0 = Except.ok r)
    (hs : r.stop_reason ≠ "tool_use")
    (ht : contentFirstText r = Except.ok t) :
    (generate_response model client query hist tools tmo).apiCalls.length = 1 ∧
    (generate_response model client query hist tools tmo).toolCalls = [] ∧
    (generate_response model client query hist tools tmo).result = Except.ok t := by
  simp [generate_response, MAX_TOOL_ROUNDS, genLoop, hc, hs, ht]

/-- Witness for C2 at a concrete client that answers directly. -/
theorem generate_response_early_exit_witness :
    clientSimple 0 = Except.ok simpleResp ∧
    simpleResp.stop_reason ≠ "tool_use" ∧
    contentFirstText simpleResp = Except.ok "This is a simple response from Claude." ∧
    ((generate_response "m" clientSimple "What is testing?" none none none).apiCalls.length = 1 ∧
     (generate_response "m" clientSimple "What is testing?" none none none).toolCalls = [] ∧
     (generate_response "m" clientSimple "What is testing?" none none none).result =
       Except.ok "This is a simple response from Claude.") :=
  ⟨rfl, by decide, rfl,
    generate_response_early_exit "m" clientSimple "What is testing?" none none none
      simpleResp "This is a simple response from Claude." rfl (by decide) rfl⟩

/-- C5: dispatching a name absent from the registry never raises (the
embedded dispatch is a total function into `String`) and returns exactly
the text `Tool '{name}' not found`. -/
theorem execute_tool_not_found (m : SearchTools.ToolManager) (name : String)
    (args : ToolArgs) (h : m.tools.lookup name = none) :
    m.execute_tool name args =
      "Tool " ++ SearchTools.sq ++ name ++ SearchTools.sq ++ " not found" := by
  unfold SearchTools.ToolManager.execute_tool
  rw [h]

/-- Witness for C5 at the empty registry and the name used by the test
suite. -/
theorem execute_tool_not_found_witness :
    emptyManager.tools.lookup "nonexistent_tool" = none ∧
    emptyManager.execute_tool "nonexistent_tool" [("query", "test")] =
      "Tool " ++ SearchTools.sq ++ "nonexistent_tool" ++ SearchTools.sq ++ " not found" :=
  ⟨rfl, execute_tool_not_found emptyManager "nonexistent_tool" [("query", "test")] rfl⟩

/-- C7: when the retrieval collaborator reports an error, the tool's
execute returns the error message verbatim (and cannot raise, being a
total function into `String`). -/
theorem execute_error_propagation (tool : SearchTools.CourseSearchTool)
    (q : String) (c : Option String) (l : Option Int) (e : String)
    (he : (tool.store.search q c l).error = some e) :
    tool.execute q c l = e := by
  simp only [SearchTools.CourseSearchTool.execute]
  rw [he]

/-- Witness for C7 at a collaborator that reports `Course not found`. -/
theorem execute_error_propagation_witness :
    (errTool.store.search "testing basics" none none).error = some "Course not found" ∧
    errTool.execute "testing basics" none none = "Course not found" :=
  ⟨rfl, execute_error_propagation errTool "testing basics" none none "Course not found" rfl⟩

/-- C6: on an empty, error-free hit list the returned text is exactly
determined by the supplied filters — the base message, a course clause, a
lesson clause, or both with the course clause first. -/
theorem execute_empty_results (tool : SearchTools.CourseSearchTool)
    (q : String) (c : Option String) (l : Option Int)
    (he : (tool.store.search q c l).error = none)
    (hd : (tool.store.search q c l).documents = []) :
    tool.execute q c l =
      match c, l with
      | none, none => "No relevant content found."
      | some cn, none =>
          "No relevant content found in course " ++ SearchTools.sq ++ cn ++ SearchTools.sq ++ "."
      | none, some n => "No relevant content found in lesson " ++ toString n ++ "."
      | some cn, some n =>
          "No relevant content found in course " ++ SearchTools.sq ++ cn ++ SearchTools.sq ++
            " in lesson " ++ toString n ++ "." := by
  simp only [SearchTools.CourseSearchTool.execute]
  rw [he, hd]
  cases c <;> cases l <;> simp [String.append_assoc] <;> rfl

/-- Witness for C6, instantiating all four filter combinations over the
empty store. -/
theorem execute_empty_results_witness :
    ((emptyTool.store.search "x" none none).error = none ∧
      (emptyTool.store.search "x" none none).documents = [] ∧
      emptyTool.execute "x" none none = "No relevant content found.") ∧
    ((emptyTool.store.search "x" (some "C") none).error = none ∧
      (emptyTool.store.search "x" (some "C") none).documents = [] ∧
      emptyTool.execute "x" (some "C") none =
        "No relevant content found in course " ++ SearchTools.sq ++ "C" ++ SearchTools.sq ++ ".") ∧
    ((emptyTool.store.search "x" none (some 3)).error = none ∧
      (emptyTool.store.search "x" none (some 3)).documents = [] ∧
      emptyTool.execute "x" none (some 3) =
        "No relevant content found in lesson " ++ toString (3 : Int) ++ ".") ∧
    ((emptyTool.store.search "x" (some "C") (some 3)).error = none ∧
      (emptyTool.store.search "x" (some "C") (some 3)).documents = [] ∧
      emptyTool.execute "x" (some "C") (some 3) =
        "No relevant content found in course " ++ SearchTools.sq ++ "C" ++ SearchTools.sq ++
          " in lesson " ++ toString (3 : Int) ++ ".") :=
  ⟨⟨rfl, rfl, execute_empty_results emptyTool "x" none none rfl rfl⟩,
   ⟨rfl, rfl, execute_empty_results emptyTool "x" (some "C") none rfl rfl⟩,
   ⟨rfl, rfl, execute_empty_results emptyTool "x" none (some 3) rfl rfl⟩,
   ⟨rfl, rfl, execute_empty_results emptyTool "x" (some "C") (some 3) rfl rfl⟩⟩

/-- C3: in a round where the response requests tool use, a dispatcher is
supplied, and the response holds at least one tool-use block, the loop
appends the assistant turn, dispatches once per tool-use block in block
order, appends one single user turn carrying one tool_result entry per
request (each tagged with the originating block's id), and continues with
the next round. -/
theorem genLoop_tool_round (model : String) (client : Nat → Except PyError ModelResponse)
    (sc : String) (tools : Option (List ToolDef)) (tm : ToolManager) (n : Nat)
    (messages : List Message) (callIdx : Nat) (apiLog : List ApiParams)
    (toolLog : List ToolCall) (r : ModelResponse)
    (hc : client callIdx = Except.ok r)
    (hs : r.stop_reason = "tool_use")
    (hreq : r.content.filter (fun b => b.type == "tool_use") ≠ []) :
    genLoop model client sc tools (some tm) (n + 1) messages callIdx apiLog toolLog =
      genLoop model client sc tools (some tm) n
        (messages ++ [⟨"assistant", MsgContent.blocks r.content⟩,
          ⟨"user", MsgContent.results ((r.content.filter (fun b => b.type == "tool_use")).map
            (fun b => ⟨"tool_result", b.id, tm.execute_tool b.name b.input⟩))⟩])
        (callIdx + 1) (apiLog ++ [roundParams model sc messages tools])
        (toolLog ++ (r.content.filter (fun b => b.type == "tool_use")).map
          (fun b => (b.name, b.input))) := by
  simp [genLoop, hc, hs, execute_tools, execute_toolsAux_eq, hreq]

/-- Witness for C3 at a concrete one-block tool-use round. -/
theorem genLoop_tool_round_witness :
    clientAlwaysTool 0 = Except.ok toolUseResp ∧
    toolUseResp.stop_reason = "tool_use" ∧
    toolUseResp.content.filter (fun b => b.type == "tool_use") ≠ [] ∧
    genLoop "m" clientAlwaysTool "sys" none (some tmFixed) 1
        [⟨"user", MsgContent.text "q"⟩] 0 [] [] =
      genLoop "m" clientAlwaysTool "sys" none (some tmFixed) 0
        ([⟨"user", MsgContent.text "q"⟩] ++
          [⟨"assistant", MsgContent.blocks toolUseResp.content⟩,
           ⟨"user", MsgContent.results ((toolUseResp.content.filter
              (fun b => b.type == "tool_use")).map
             (fun b => ⟨"tool_result", b.id, tmFixed.execute_tool b.name b.input⟩))⟩])
        (0 + 1) ([] ++ [roundParams "m" "sys" [⟨"user", MsgContent.text "q"⟩] none])
        ([] ++ (toolUseResp.content.filter (fun b => b.type == "tool_use")).map
          (fun b => (b.name, b.input))) :=
  ⟨rfl, rfl, by decide,
    genLoop_tool_round "m" clientAlwaysTool "sys" none tmFixed 0
      [⟨"user", MsgContent.text "q"⟩] 0 [] [] toolUseResp rfl rfl (by decide)⟩

/-- C10: in a round where the response has stop reason `tool_use` and a
dispatcher is supplied but the response holds no tool-use block, the
assistant turn is still appended, no dispatch occurs, no tool-result user
turn is appended, and the loop continues with the next round. -/
theorem genLoop_zero_tool_blocks (model : String) (client : Nat → Except PyError ModelResponse)
    (sc : String) (tools : Option (List ToolDef)) (tm : ToolManager) (n : Nat)
    (messages : List Message) (callIdx : Nat) (apiLog : List ApiParams)
    (toolLog : List ToolCall) (r : ModelResponse)
    (hc : client callIdx = Except.ok r)
    (hs : r.stop_reason = "tool_use")
    (hreq : r.content.filter (fun b => b.type == "tool_use") = []) :
    genLoop model client sc tools (some tm) (n + 1) messages callIdx apiLog toolLog =
      genLoop model client sc tools (some tm) n
        (messages ++ [⟨"assistant", MsgContent.blocks r.content⟩])
        (callIdx + 1) (apiLog ++ [roundParams model sc messages tools]) toolLog := by
  simp [genLoop, hc, hs, execute_tools, execute_toolsAux_eq, hreq]

/-- Witness for C10 at a concrete tool-use round without tool-use blocks. -/
theorem genLoop_zero_tool_blocks_witness :
    clientOddTool 0 = Except.ok toolUseEmptyResp ∧
    toolUseEmptyResp.stop_reason = "tool_use" ∧
    toolUseEmptyResp.content.filter (fun b => b.type == "tool_use") = [] ∧
    genLoop "m" clientOddTool "sys" none (some tmFixed) 1
        [⟨"user", MsgContent.text "q"⟩] 0 [] [] =
      genLoop "m" clientOddTool "sys" none (some tmFixed) 0
        ([⟨"user", MsgContent.text "q"⟩] ++
          [⟨"assistant", MsgContent.blocks toolUseEmptyResp.content⟩])
        (0 + 1) ([] ++ [roundParams "m" "sys" [⟨"user", MsgContent.text "q"⟩] none]) [] :=
  ⟨rfl, rfl, by decide,
    genLoop_zero_tool_blocks "m" clientOddTool "sys" none tmFixed 0
      [⟨"user", MsgContent.text "q"⟩] 0 [] [] toolUseEmptyResp rfl rfl (by decide)⟩

/-- C1: when every in-loop response requests tool use, the loop makes
exactly `MAX_TOOL_ROUNDS` tool-bearing model calls, then one additional
call whose parameters carry no tools and no tool_choice, returns the final
response's first content block's text, and makes `MAX_TOOL_ROUNDS + 1 = 3`
model calls in total. -/
theorem generate_response_round_bound (model : String)
    (client : Nat → Except PyError ModelResponse) (query : String)
    (hist : Option String) (ts : List ToolDef) (tm : ToolManager)
    (rfinal : ModelResponse) (ft : String)
    (hts : ts.isEmpty = false)
    (h0 : okToolUse (client 0) = true)
    (h1 : okToolUse (client 1) = true)
    (hf : client 2 = Except.ok rfinal)
    (hft : contentFirstText rfinal = Except.ok ft) :
    (generate_response model client query hist (some ts) (some tm)).apiCalls.length =
      MAX_TOOL_ROUNDS + 1 ∧
    (generate_response model client query hist (some ts) (some tm)).apiCalls.map
        (fun p => (p.tools, p.tool_choice)) =
      [(some ts, some "auto"), (some ts, some "auto"), (none, none)] ∧
    (generate_response model client query hist (some ts) (some tm)).result = Except.ok ft := by
  cases hc0 : client 0 with
  | error e => rw [hc0] at h0; simp [okToolUse] at h0
  | ok r0 =>
    cases hc1 : client 1 with
    | error e => rw [hc1] at h1; simp [okToolUse] at h1
    | ok r1 =>
      rw [hc0] at h0
      rw [hc1] at h1
      simp only [okToolUse, beq_iff_eq] at h0 h1
      simp [generate_response, MAX_TOOL_ROUNDS, genLoop, hc0, hc1, hf, h0, h1, hft,
        roundParams, finalParams, truthyList, hts]

/-- Witness for C1 at a client that requests tools twice and then answers. -/
theorem generate_response_round_bound_witness :
    (["search_course_content"] : List ToolDef).isEmpty = false ∧
    okToolUse (clientTwoRounds 0) = true ∧
    okToolUse (clientTwoRounds 1) = true ∧
    clientTwoRounds 2 = Except.ok finalResp ∧
    contentFirstText finalResp = Except.ok "Final answer synthesizing tool results" ∧
    ((generate_response "m" clientTwoRounds "Complex query" none
        (some ["search_course_content"]) (some tmFixed)).apiCalls.length =
      MAX_TOOL_ROUNDS + 1 ∧
     (generate_response "m" clientTwoRounds "Complex query" none
        (some ["search_course_content"]) (some tmFixed)).apiCalls.map
         (fun p => (p.tools, p.tool_choice)) =
       [(some ["search_course_content"], some "auto"),
        (some ["search_course_content"], some "auto"), (none, none)] ∧
     (generate_response "m" clientTwoRounds "Complex query" none
        (some ["search_course_content"]) (some tmFixed)).result =
       Except.ok "Final answer synthesizing tool results") :=
  ⟨rfl, rfl, rfl, rfl, rfl,
    generate_response_round_bound "m" clientTwoRounds "Complex query" none
      ["search_course_content"] tmFixed finalResp
      "Final answer synthesizing tool results" rfl rfl rfl rfl rfl⟩

/-- C8: a model-call failure propagates uncaught to the caller: the failing
call is the last call made (no retry, no further calls) and the run's
result is exactly that error. -/
theorem generate_response_model_failure (model : String)
    (client : Nat → Except PyError ModelResponse) (query : String)
    (hist : Option String) (tools : Option (List ToolDef)) (tm : ToolManager)
    (k : Nat) (e : PyError)
    (hk : k ≤ MAX_TOOL_ROUNDS)
    (he : client k = Except.error e)
    (hprev : ∀ j, j < k → okToolUse (client j) = true) :
    (generate_response model client query hist tools (some tm)).apiCalls.length = k + 1 ∧
    (generate_response model client query hist tools (some tm)).result = Except.error e := by
  have hk2 : k ≤ 2 := hk
  interval_cases k
  · simp [generate_response, MAX_TOOL_ROUNDS, genLoop, he]
  · have h0 := hprev 0 (by norm_num)
    cases hc0 : client 0 with
    | error e0 => rw [hc0] at h0; simp [okToolUse] at h0
    | ok r0 =>
      rw [hc0] at h0
      simp only [okToolUse, beq_iff_eq] at h0
      simp [generate_response, MAX_TOOL_ROUNDS, genLoop, hc0, h0, he]
  · have h0 := hprev 0 (by norm_num)
    have h1 := hprev 1 (by norm_num)
    cases hc0 : client 0 with
    | error e0 => rw [hc0] at h0; simp [okToolUse] at h0
    | ok r0 =>
      cases hc1 : client 1 with
      | error e1 => rw [hc1] at h1; simp [okToolUse] at h1
      | ok r1 =>
        rw [hc0] at h0
        rw [hc1] at h1
        simp only [okToolUse, beq_iff_eq] at h0 h1
        simp [generate_response, MAX_TOOL_ROUNDS, genLoop, hc0, hc1, h0, h1, he]

/-- Witness for C8 at a client whose second call fails. -/
theorem generate_response_model_failure_witness :
    (1 : Nat) ≤ MAX_TOOL_ROUNDS ∧
    clientFailSecond 1 = Except.error (PyError.apiError "API unreachable") ∧
    (∀ j, j < 1 → okToolUse (clientFailSecond j) = true) ∧
    ((generate_response "m" clientFailSecond "q" none (some ["t"]) (some tmFixed)).apiCalls.length = 2 ∧
     (generate_response "m" clientFailSecond "q" none (some ["t"]) (some tmFixed)).result =
       Except.error (PyError.apiError "API unreachable")) :=
  ⟨by decide, rfl, by decide,
    generate_response_model_failure "m" clientFailSecond "q" none (some ["t"]) tmFixed 1
      (PyError.apiError "API unreachable") (by decide) rfl (by decide)⟩

/-- Helper: every model call issued by the loop carries the supplied system
instruction. -/
theorem genLoop_system_all (model : String) (client : Nat → Except PyError ModelResponse)
    (sc : String) (tools : Option (List ToolDef)) (tmo : Option ToolManager) :
    ∀ (n : Nat) (messages : List Message) (callIdx : Nat)
      (apiLog : List ApiParams) (toolLog : List ToolCall),
      apiLog.all (fun p => p.system == sc) = true →
      ((genLoop model client sc tools tmo n messages callIdx apiLog toolLog).apiCalls.all
        (fun p => p.system == sc)) = true := by
  intro n
  induction n with
  | zero =>
    intro messages callIdx apiLog toolLog h
    cases hc : client callIdx <;> simp [genLoop, hc, List.all_append, finalParams, h]
  | succ n ih =>
    intro messages callIdx apiLog toolLog h
    have hap : (roundParams model sc messages tools).system = sc := by
      unfold roundParams
      split <;> rfl
    cases hc : client callIdx with
    | error e => simp [genLoop, hc, List.all_append, h, hap]
    | ok r =>
      by_cases hs : r.stop_reason = "tool_use"
      · cases tmo with
        | none => simp [genLoop, hc, hs, List.all_append, h, hap]
        | some tm =>
          simp only [genLoop, hc, hs, ne_eq, not_true_eq_false, if_false]
          exact ih _ _ _ _ (by simp [List.all_append, h, hap])
      · simp [genLoop, hc, hs, List.all_append, h, hap]

/-- C9: an empty conversation-history string behaves exactly like an absent
history — the run is identical to the `None` case and the system
instruction passed to every model call is exactly `SYSTEM_PROMPT`, with no
`Previous conversation:` block. -/
theorem generate_response_empty_history (model : String)
    (client : Nat → Except PyError ModelResponse) (query : String)
    (tools : Option (List ToolDef)) (tmo : Option ToolManager) :
    generate_response model client query (some "") tools tmo =
      generate_response model client query none tools tmo ∧
    ((generate_response model client query (some "") tools tmo).apiCalls.all
      (fun p => p.system == SYSTEM_PROMPT)) = true := by
  constructor
  · rfl
  · exact genLoop_system_all model client SYSTEM_PROMPT tools tmo MAX_TOOL_ROUNDS
      [⟨"user", MsgContent.text query⟩] 0 [] [] rfl

/-- C4 counterexample: tools offered, the model requests tool use, no
dispatcher — one model call occurs, but the run does not return response
content without error: reading `.text` on the first (tool-use) content
block raises `AttributeError`. -/
theorem generate_response_no_manager_counterexample :
    (generate_response "m" clientAlwaysTool "Test query" none
      (some ["search_course_content"]) none).apiCalls.length = 1 ∧
    (generate_response "m" clientAlwaysTool "Test query" none
      (some ["search_course_content"]) none).result =
      Except.error PyError.attributeError := by
  constructor <;> rfl

/-- C4 (amended): with tools offered, a first response requesting tool use,
and no dispatcher, exactly one model call occurs, no tool is dispatched,
and the run returns the evaluation of `response.content[0].text` — the
first block's text when the block has one, otherwise a propagated
`AttributeError` (or `IndexError` on empty content); the raw response
content is not returned. -/
theorem generate_response_no_manager (model : String)
    (client : Nat → Except PyError ModelResponse) (query : String)
    (hist : Option String) (ts : List ToolDef) (r : ModelResponse)
    (_hts : ts.isEmpty = false)
    (hc : client 0 = Except.ok r)
    (hs : r.stop_reason = "tool_use") :
    (generate_response model client query hist (some ts) none).apiCalls.length = 1 ∧
    (generate_response model client query hist (some ts) none).toolCalls = [] ∧
    (generate_response model client query hist (some ts) none).result = contentFirstText r := by
  simp [generate_response, MAX_TOOL_ROUNDS, genLoop, hc, hs]

/-- Witness for the amended C4 at a concrete tool-use response. -/
theorem generate_response_no_manager_witness :
    (["search_course_content"] : List ToolDef).isEmpty = false ∧
    clientAlwaysTool 0 = Except.ok toolUseResp ∧
    toolUseResp.stop_reason = "tool_use" ∧
    ((generate_response "m" clientAlwaysTool "Test query" none
        (some ["search_course_content"]) none).apiCalls.length = 1 ∧
     (generate_response "m" clientAlwaysTool "Test query" none
        (some ["search_course_content"]) none).toolCalls = [] ∧
     (generate_response "m" clientAlwaysTool "Test query" none
        (some ["search_course_content"]) none).result = contentFirstText toolUseResp) :=
  ⟨rfl, rfl, rfl,
    generate_response_no_manager "m" clientAlwaysTool "Test query" none
      ["search_course_content"] toolUseResp rfl rfl rfl⟩
